import Mathlib

/-!
Shallow embedding of `src/main.py` of the repository
`pvanand07/fastapi-web-server-with-auth`: the token codec (`create_jwt`,
`verify_jwt`) and the `/check_status` gateway endpoint.

Modelling conventions:
* JSON/Python payload values are `PyValue`; a payload dict is an association
  list `PyDict`, with Python truthiness made explicit.
* A request token (a `str`) is either the empty string, a malformed string
  that is not a JWT, or a structurally decodable JWT. A JWT is modelled as
  its JOSE header, its payload claims, and the key/algorithm it was signed
  with (signature verification succeeds exactly when key and algorithm
  match the verifier's).
* The `jose.jwt` library calls are modelled by their JOSE semantics:
  `encode` merges extra headers into the JOSE header and signs the payload;
  `decode` with a key checks signature (key + algorithm) and then validates
  the `exp` claim of the *payload* against the current time; `decode` with
  `verify_signature: False` returns the payload with no checks. Time is an
  integer count of seconds.
* The Supabase allowlist lookup is an external collaborator: it is passed in
  as a function from the queried email value to either a result row list or
  a raised error. A raised Python exception that escapes the handler is an
  `Except.error`.
-/

inductive PyValue where
  | none : PyValue
  | bool : Bool → PyValue
  | str : String → PyValue
  | int : Int → PyValue
deriving DecidableEq, Repr

/-- Python truthiness of a payload value. -/
def PyValue.truthy : PyValue → Bool
  | .none => false
  | .bool b => b
  | .str s => s ≠ ""
  | .int n => n ≠ 0

/-- A Python dict with string keys, as an association list (first hit wins). -/
abbrev PyDict := List (String × PyValue)

/-- `d.get(k)` — returns `None` when the key is absent. -/
def PyDict.get (d : PyDict) (k : String) : PyValue :=
  match d.find? (fun p => p.1 == k) with
  | some p => p.2
  | Option.none => .none

/-- `d[k]` — raises `KeyError` (modelled as `none`) when the key is absent. -/
def PyDict.item? (d : PyDict) (k : String) : Option PyValue :=
  (d.find? (fun p => p.1 == k)).map Prod.snd

/-- A structurally well-formed JWT: JOSE header, payload claims, and the
signing key and algorithm (signature checking succeeds iff both match). -/
structure Jwt where
  header : PyDict
  payload : PyDict
  key : String
  alg : String
deriving DecidableEq, Repr

/-- The token string received by `/check_status`. -/
inductive Token where
  | empty : Token
  | malformed (s : String) : Token
  | jwt (j : Jwt) : Token
deriving DecidableEq, Repr

/-- `jose.jwt.encode(payload, key, algorithm=alg, headers=extra)`: merges the
extra headers into the JOSE header `{typ, alg}` and signs the payload. -/
def jwt_encode (payload : PyDict) (key : String) (alg : String)
    (extraHeaders : PyDict) : Jwt :=
  { header := [("typ", PyValue.str "JWT"), ("alg", PyValue.str alg)] ++ extraHeaders
    payload := payload
    key := key
    alg := alg }

/-- `jose.jwt.decode(token, key, algorithms=[alg])` at time `now`: verifies
the signature (key and algorithm must match), then validates the `exp`
claim of the payload — a numeric `exp` in the past raises
`ExpiredSignatureError`, a non-numeric `exp` raises a claims error. The
JOSE header is never validated beyond the algorithm. Any failure,
including a malformed token, is modelled as `none` (an exception). -/
def jwt_decode (t : Token) (key : String) (alg : String) (now : Int) :
    Option PyDict :=
  match t with
  | .jwt j =>
    if j.key = key ∧ j.alg = alg then
      match j.payload.item? "exp" with
      | some (.int e) => if e < now then none else some j.payload
      | some _ => none
      | Option.none => some j.payload
    else none
  | _ => none

/-- `jose.jwt.decode(token, options={"verify_signature": False})`: decodes
the payload of any structurally well-formed JWT with no signature check and
no claim validation; a malformed token raises (modelled as `none`). -/
def jwt_decode_unverified (t : Token) : Option PyDict :=
  match t with
  | .jwt j => some j.payload
  | _ => none

/-- `create_jwt` (src/main.py lines 40-42): computes `exp = utcnow + 24h`
but passes it in `headers={'exp': exp}`, so the expiry lands in the JOSE
*header*, not in the payload claims. -/
def create_jwt (payload : PyDict) (secret : String) (now : Int) : Jwt :=
  jwt_encode payload secret "HS256" [("exp", PyValue.int (now + 86400))]

/-- `verify_jwt` (src/main.py lines 44-48): decode with the service secret
and HS256; any exception is swallowed and `None` is returned. -/
def verify_jwt (t : Token) (secret : String) (now : Int) : Option PyDict :=
  jwt_decode t secret "HS256" now

/-- Result of the Supabase allowlist query
`supabase.table('email_allowlist').select('email').eq('email', e).execute()`:
either a response whose `.data` is a row list, or a raised transport/lookup
error. -/
inductive OracleResult where
  | ok (data : List String) : OracleResult
  | err : OracleResult
deriving DecidableEq, Repr

/-- The JSON body of a `/check_status` response: either `{'url': u}` or
`{'route': r}`. -/
inductive Content where
  | url (u : String) : Content
  | route (r : String) : Content
deriving DecidableEq, Repr

/-- A `/check_status` response: its JSON content and the `auth_token`
cookie, when one was set. -/
structure HttpResponse where
  content : Content
  cookie : Option Jwt
deriving DecidableEq, Repr

/-- A Python exception escaping the endpoint (no handler in the source). -/
inductive PyError where
  | supabaseError : PyError
deriving DecidableEq, Repr

def APP_URL : String := "https://www.app.com"

/-- The email-recovery step of the slow path (src/main.py lines 101-106):
unverified decode of the payload, then subscript `['email']`; a decode
error or a missing key both raise into the same bare `except`. -/
def extractEmail (t : Token) : Option PyValue :=
  (jwt_decode_unverified t).bind (fun up => up.item? "email")

/-- The `/check_status` endpoint (src/main.py lines 81-132), as a function
of the request token, the service secret, the allowlist oracle (a function
of the queried email value), and the current time. `if jwt_payload:` tests
Python truthiness, so a verified empty payload dict falls through to the
recovery path just like a failed verification. The Supabase call is not
wrapped in a try block: its error propagates as `Except.error`. -/
def check_status (token : Token) (secret : String)
    (oracle : PyValue → OracleResult) (now : Int) :
    Except PyError HttpResponse :=
  if token = Token.empty then
    .ok { content := .route "/login", cookie := none }
  else
    match verify_jwt token secret now with
    | some (kv :: rest) =>
      let p : PyDict := kv :: rest
      if (p.get "authenticated").truthy && (p.get "valid").truthy then
        .ok { content := .url APP_URL, cookie := none }
      else if (p.get "authenticated").truthy && !(p.get "valid").truthy then
        .ok { content := .route "/waitlist", cookie := none }
      else
        .ok { content := .route "/login", cookie := none }
    | _ =>
      match extractEmail token with
      | Option.none =>
        .ok { content := .route "/login", cookie := none }
      | some user_email =>
        if ¬ user_email.truthy then
          .ok { content := .route "/login", cookie := none }
        else
          match oracle user_email with
          | .err => .error .supabaseError
          | .ok data =>
            let user_authenticated := true
            let user_valid : Bool := decide (0 < data.length)
            let new_token :=
              create_jwt [("authenticated", PyValue.bool user_authenticated),
                          ("valid", PyValue.bool user_valid)] secret now
            let content :=
              if user_authenticated && user_valid then Content.url APP_URL
              else if user_authenticated && !user_valid then
                Content.route "/waitlist"
              else Content.route "/login"
            .ok { content := content, cookie := some new_token }

/-! Helper lemmas about the embedded functions. -/

lemma verify_jwt_empty (secret : String) (now : Int) :
    verify_jwt Token.empty secret now = none := rfl

lemma verify_jwt_malformed (s secret : String) (now : Int) :
    verify_jwt (Token.malformed s) secret now = none := rfl

lemma extractEmail_empty : extractEmail Token.empty = none := rfl

lemma extractEmail_jwt (j : Jwt) :
    extractEmail (Token.jwt j) = PyDict.item? j.payload "email" := rfl

/-- A successful `verify_jwt` returns exactly the token's payload, and only
when key and algorithm match. -/
lemma verify_jwt_some (j : Jwt) (secret : String) (now : Int) (p : PyDict)
    (h : verify_jwt (Token.jwt j) secret now = some p) :
    p = j.payload ∧ j.key = secret ∧ j.alg = "HS256" := by
  simp only [verify_jwt, jwt_decode] at h
  split at h
  case isTrue hk =>
    split at h
    · split at h
      · exact absurd h (by simp)
      · injection h with h; exact ⟨h.symm, hk⟩
    · exact absurd h (by simp)
    · injection h with h; exact ⟨h.symm, hk⟩
  case isFalse hk => exact absurd h (by simp)

/-- When the token verifies, `check_status` answers from the claim fields
alone and never sets a cookie; a verified *empty* payload dict is falsy in
Python and drops to the recovery path, which ends at the login route
because the empty payload has no email. -/
lemma check_status_of_verified (token : Token) (secret : String)
    (oracle : PyValue → OracleResult) (now : Int) (p : PyDict)
    (hv : verify_jwt token secret now = some p) :
    check_status token secret oracle now =
      Except.ok
        { content :=
            if (p.get "authenticated").truthy && (p.get "valid").truthy then
              Content.url APP_URL
            else if (p.get "authenticated").truthy then Content.route "/waitlist"
            else Content.route "/login",
          cookie := none } := by
  cases token with
  | empty => exact absurd hv (by simp [verify_jwt, jwt_decode])
  | malformed s => exact absurd hv (by simp [verify_jwt, jwt_decode])
  | jwt j =>
    obtain ⟨hp, -, -⟩ := verify_jwt_some j secret now p hv
    cases hpl : j.payload with
    | nil =>
      rw [hpl] at hp; subst hp
      simp only [check_status, extractEmail_jwt, hpl, hv]
      rfl
    | cons kv rest =>
      rw [hpl] at hp; subst hp
      simp only [check_status, hv]
      by_cases ha : (PyDict.get (kv :: rest) "authenticated").truthy <;>
        by_cases hb : (PyDict.get (kv :: rest) "valid").truthy <;>
          simp [ha, hb]

/-- When no trusted (truthy) claim is available, `check_status` runs the
recovery pipeline: email extraction, truthiness test, oracle lookup, mint
and cookie — with the oracle's error escaping unhandled. -/
lemma check_status_slow (token : Token) (secret : String)
    (oracle : PyValue → OracleResult) (now : Int)
    (hne : token ≠ Token.empty)
    (hv : verify_jwt token secret now = none ∨
          verify_jwt token secret now = some []) :
    check_status token secret oracle now =
      match extractEmail token with
      | Option.none => .ok { content := .route "/login", cookie := none }
      | some e =>
        if ¬ e.truthy then .ok { content := .route "/login", cookie := none }
        else
          match oracle e with
          | .err => .error .supabaseError
          | .ok data =>
            .ok { content :=
                    if 0 < data.length then Content.url APP_URL
                    else Content.route "/waitlist",
                  cookie := some (create_jwt
                    [("authenticated", PyValue.bool true),
                     ("valid", PyValue.bool (decide (0 < data.length)))]
                    secret now) } := by
  rcases he : extractEmail token with _ | e
  · rcases hv with hv | hv <;> simp [check_status, hv, if_neg hne, he]
  · by_cases ht : e.truthy
    · rcases ho : oracle e with data | _
      · rcases hv with hv | hv <;>
          by_cases hd : 0 < data.length <;>
            simp [check_status, hv, if_neg hne, he, ht, ho, hd]
      · rcases hv with hv | hv <;>
          simp [check_status, hv, if_neg hne, he, ht, ho]
    · rcases hv with hv | hv <;>
        simp [check_status, hv, if_neg hne, he, ht]

/-! Claim theorems. -/

/-- C8: when the token is the empty string, the outcome is the login route
with no cookie, for every secret, every oracle and every time — so the
decision is independent of verification, extraction and the oracle. -/
theorem C8_empty_token_is_login_no_cookie (secret : String)
    (oracle : PyValue → OracleResult) (now : Int) :
    check_status Token.empty secret oracle now =
      Except.ok { content := Content.route "/login", cookie := none } := rfl

/-- C2: code behaviour at the failing input. A token minted by create_jwt
carries no expiry claim in its payload (the expiry was passed as a JOSE
header), so 90000 seconds (25 hours) after minting it still verifies to
the full claim set instead of being treated as absent. -/
theorem C2_minted_token_never_expires :
    PyDict.item?
        (create_jwt [("authenticated", PyValue.bool true),
                     ("valid", PyValue.bool true)] "secret" 0).payload "exp"
      = none ∧
    verify_jwt
        (Token.jwt (create_jwt [("authenticated", PyValue.bool true),
                                ("valid", PyValue.bool true)] "secret" 0))
        "secret" 90000
      = some [("authenticated", PyValue.bool true),
              ("valid", PyValue.bool true)] := by
  constructor <;> rfl

/-- C3: round-trip. A claim set minted by the decision engine, decoded
within its 24-hour validity window with the same secret, comes back
exactly: fidelity for the authenticated and valid fields. -/
theorem C3_mint_verify_round_trip (a b : Bool) (secret : String)
    (t0 now : Int) (h : now < t0 + 86400) :
    verify_jwt
        (Token.jwt (create_jwt [("authenticated", PyValue.bool a),
                                ("valid", PyValue.bool b)] secret t0))
        secret now
      = some [("authenticated", PyValue.bool a),
              ("valid", PyValue.bool b)] := by
  simp [verify_jwt, jwt_decode, create_jwt, jwt_encode, PyDict.item?,
    List.find?]

/-- C3 witness at a concrete claim set and time inside the window. -/
theorem C3_mint_verify_round_trip_witness :
    verify_jwt
        (Token.jwt (create_jwt [("authenticated", PyValue.bool true),
                                ("valid", PyValue.bool false)] "secret" 0))
        "secret" 3600
      = some [("authenticated", PyValue.bool true),
              ("valid", PyValue.bool false)] :=
  C3_mint_verify_round_trip true false "secret" 0 3600 (by decide)

/-- C1 counterexample: a token that fails verification and yields the email
of its payload, combined with an oracle that raises, makes check_status
surface the exception — the result is not the login route with no
credential that the claim requires. -/
theorem C1_counterexample_oracle_error_is_exception :
    check_status
        (Token.jwt { header := [], payload := [("email", PyValue.str "a@x.com")],
                     key := "wrong-key", alg := "HS256" })
        "secret" (fun _ => OracleResult.err) 0
      = Except.error PyError.supabaseError ∧
    check_status
        (Token.jwt { header := [], payload := [("email", PyValue.str "a@x.com")],
                     key := "wrong-key", alg := "HS256" })
        "secret" (fun _ => OracleResult.err) 0
      ≠ Except.ok { content := Content.route "/login", cookie := none } :=
  ⟨rfl, fun h => nomatch h⟩

/-- C1 (amended): when the token fails verification, an email is recovered
and truthy, and the oracle raises, the exception propagates out of
check_status unhandled — the caller gets a server error, not the login
route; no zone is returned and no credential is set. -/
theorem C1_amended_oracle_error_propagates (token : Token) (secret : String)
    (oracle : PyValue → OracleResult) (now : Int) (e : PyValue)
    (hv : verify_jwt token secret now = none ∨
          verify_jwt token secret now = some [])
    (he : extractEmail token = some e) (ht : e.truthy = true)
    (ho : oracle e = OracleResult.err) :
    check_status token secret oracle now =
      Except.error PyError.supabaseError := by
  have hne : token ≠ Token.empty := by
    intro hx; subst hx; rw [extractEmail_empty] at he; cases he
  rw [check_status_slow token secret oracle now hne hv, he]
  simp [ht, ho]

/-- C1 amended-claim witness at a concrete token and oracle. -/
theorem C1_amended_oracle_error_propagates_witness :
    check_status
        (Token.jwt { header := [], payload := [("email", PyValue.str "b@x.com")],
                     key := "other-key", alg := "HS256" })
        "secret" (fun _ => OracleResult.err) 7
      = Except.error PyError.supabaseError :=
  C1_amended_oracle_error_propagates _ _ _ _ (PyValue.str "b@x.com")
    (Or.inl rfl) rfl (by decide) rfl

/-- C5: any token that verifies is routed purely by its claim fields —
truthy authenticated and truthy valid give the app URL, truthy
authenticated with falsy valid gives the waitlist route, and every other
combination (including hand-crafted authenticated=false, valid=true, and
the verified empty payload) gives the login route; no cookie is set. -/
theorem C5_verified_token_routes_by_claim_fields (token : Token)
    (secret : String) (oracle : PyValue → OracleResult) (now : Int)
    (p : PyDict) (hv : verify_jwt token secret now = some p) :
    check_status token secret oracle now =
      Except.ok
        { content :=
            if (p.get "authenticated").truthy && (p.get "valid").truthy then
              Content.url APP_URL
            else if (p.get "authenticated").truthy then
              Content.route "/waitlist"
            else Content.route "/login",
          cookie := none } :=
  check_status_of_verified token secret oracle now p hv

/-- C5 witness: a correctly signed, hand-crafted claim set with
authenticated=false and valid=true resolves to the login route. -/
theorem C5_verified_token_routes_witness :
    check_status
        (Token.jwt { header := [],
                     payload := [("authenticated", PyValue.bool false),
                                 ("valid", PyValue.bool true)],
                     key := "secret", alg := "HS256" })
        "secret" (fun _ => OracleResult.err) 0
      = Except.ok { content := Content.route "/login", cookie := none } :=
  C5_verified_token_routes_by_claim_fields _ "secret" _ 0
    [("authenticated", PyValue.bool false), ("valid", PyValue.bool true)] rfl

/-- C7: on the fast path no credential is ever set and the outcome does not
depend on the oracle at all, so a second call with the same trusted token
(under any oracle state) returns the same outcome. -/
theorem C7_fast_path_no_mint_and_idempotent (token : Token) (secret : String)
    (oracle oracle2 : PyValue → OracleResult) (now : Int) (p : PyDict)
    (hv : verify_jwt token secret now = some p) :
    check_status token secret oracle now =
      check_status token secret oracle2 now ∧
    ∀ r, check_status token secret oracle now = Except.ok r →
      r.cookie = none := by
  rw [check_status_of_verified token secret oracle now p hv,
      check_status_of_verified token secret oracle2 now p hv]
  exact ⟨rfl, fun r h => by cases h; rfl⟩

/-- C7 witness: a trusted authenticated/valid token gives the same outcome
whether the oracle would answer or raise. -/
theorem C7_fast_path_witness :
    check_status
        (Token.jwt { header := [],
                     payload := [("authenticated", PyValue.bool true),
                                 ("valid", PyValue.bool true)],
                     key := "secret", alg := "HS256" })
        "secret" (fun _ => OracleResult.ok []) 0
      = check_status
          (Token.jwt { header := [],
                       payload := [("authenticated", PyValue.bool true),
                                   ("valid", PyValue.bool true)],
                       key := "secret", alg := "HS256" })
          "secret" (fun _ => OracleResult.err) 0 :=
  (C7_fast_path_no_mint_and_idempotent
    (Token.jwt { header := [],
                 payload := [("authenticated", PyValue.bool true),
                             ("valid", PyValue.bool true)],
                 key := "secret", alg := "HS256" })
    "secret" (fun _ => OracleResult.ok []) (fun _ => OracleResult.err) 0
    [("authenticated", PyValue.bool true), ("valid", PyValue.bool true)]
    rfl).1

/-- C4: on the slow path with a recovered truthy email, the oracle's answer
decides everything — a non-empty row list mints authenticated=true,
valid=true and routes to the app URL; an empty row list mints
authenticated=true, valid=false and routes to the waitlist; in both cases
the minted token is set as the cookie and carries authenticated=true. -/
theorem C4_slow_path_mints_and_routes (token : Token) (secret : String)
    (oracle : PyValue → OracleResult) (now : Int) (e : PyValue)
    (data : List String)
    (hv : verify_jwt token secret now = none ∨
          verify_jwt token secret now = some [])
    (he : extractEmail token = some e) (ht : e.truthy = true)
    (ho : oracle e = OracleResult.ok data) :
    check_status token secret oracle now =
      Except.ok
        { content :=
            if 0 < data.length then Content.url APP_URL
            else Content.route "/waitlist",
          cookie := some (create_jwt
            [("authenticated", PyValue.bool true),
             ("valid", PyValue.bool (decide (0 < data.length)))]
            secret now) } := by
  have hne : token ≠ Token.empty := by
    intro hx; subst hx; rw [extractEmail_empty] at he; cases he
  rw [check_status_slow token secret oracle now hne hv, he]
  simp [ht, ho]

/-- C4 witness: oracle finds the email, so the response is the app URL plus
a cookie carrying the freshly minted authenticated/valid token. -/
theorem C4_slow_path_witness :
    check_status
        (Token.jwt { header := [], payload := [("email", PyValue.str "a@x.com")],
                     key := "foreign-key", alg := "HS256" })
        "secret" (fun _ => OracleResult.ok ["a@x.com"]) 5
      = Except.ok
          { content := Content.url APP_URL,
            cookie := some (create_jwt
              [("authenticated", PyValue.bool true),
               ("valid", PyValue.bool true)] "secret" 5) } :=
  C4_slow_path_mints_and_routes _ "secret" _ 5 (PyValue.str "a@x.com")
    ["a@x.com"] (Or.inl rfl) rfl (by decide) rfl

/-- C6: whenever check_status answers with the login route, the response
carries no cookie, on every path. -/
theorem C6_login_response_has_no_cookie (token : Token) (secret : String)
    (oracle : PyValue → OracleResult) (now : Int) (r : HttpResponse)
    (hok : check_status token secret oracle now = Except.ok r)
    (hr : r.content = Content.route "/login") :
    r.cookie = none := by
  by_cases hne : token = Token.empty
  · subst hne
    have h0 : check_status Token.empty secret oracle now =
        Except.ok { content := Content.route "/login", cookie := none } := rfl
    rw [h0] at hok; cases hok; rfl
  · rcases hv : verify_jwt token secret now with _ | p
    · rw [check_status_slow token secret oracle now hne (Or.inl hv)] at hok
      split at hok
      · cases hok; rfl
      · split at hok
        · cases hok; rfl
        · split at hok
          · exact absurd hok (by simp)
          · split at hok <;> (cases hok; simp at hr)
    · rw [check_status_of_verified token secret oracle now p hv] at hok
      cases hok; rfl

/-- C6 witness at the no-token input, which resolves to login. -/
theorem C6_login_no_cookie_witness :
    HttpResponse.cookie { content := Content.route "/login", cookie := none }
      = none :=
  C6_login_response_has_no_cookie Token.empty "secret"
    (fun _ => OracleResult.err) 0
    { content := Content.route "/login", cookie := none } rfl rfl

/-- C9: the slow-path identity extraction reads the email straight from
the payload, ignoring key and signature; and whenever no truthy email is
recoverable (decode error, missing or empty email field) the endpoint
answers the login route with no cookie and no exception. -/
theorem C9_no_email_resolves_to_login (token : Token) (secret : String)
    (oracle : PyValue → OracleResult) (now : Int)
    (hv : verify_jwt token secret now = none)
    (hE : ∀ e, extractEmail token = some e → e.truthy = false) :
    check_status token secret oracle now =
      Except.ok { content := Content.route "/login", cookie := none } ∧
    ∀ j : Jwt, extractEmail (Token.jwt j) = PyDict.item? j.payload "email" := by
  refine ⟨?_, fun j => extractEmail_jwt j⟩
  by_cases hne : token = Token.empty
  · subst hne; rfl
  · rw [check_status_slow token secret oracle now hne (Or.inl hv)]
    rcases he : extractEmail token with _ | e
    · rfl
    · have hf := hE e he
      simp [hf]

/-- C9 witness: a malformed token yields the login route with no cookie
even when the oracle would raise. -/
theorem C9_no_email_witness :
    check_status (Token.malformed "garbage") "secret"
        (fun _ => OracleResult.err) 0
      = Except.ok { content := Content.route "/login", cookie := none } :=
  (C9_no_email_resolves_to_login (Token.malformed "garbage") "secret"
    (fun _ => OracleResult.err) 0 rfl (fun _ h => nomatch h)).1

/-- C10: for verified tokens the outcome is a function of the truthiness of
the authenticated and valid fields alone — two tokens whose fields agree
up to truthiness get the same outcome (so a truthy non-boolean acts as
true), and a falsy or absent authenticated field resolves to login. -/
theorem C10_routing_depends_only_on_truthiness (token token2 : Token)
    (secret : String) (oracle : PyValue → OracleResult) (now : Int)
    (p p2 : PyDict)
    (hv : verify_jwt token secret now = some p)
    (hv2 : verify_jwt token2 secret now = some p2)
    (ha : (p.get "authenticated").truthy = (p2.get "authenticated").truthy)
    (hb : (p.get "valid").truthy = (p2.get "valid").truthy) :
    check_status token secret oracle now =
      check_status token2 secret oracle now ∧
    ((p.get "authenticated").truthy = false →
      check_status token secret oracle now =
        Except.ok { content := Content.route "/login", cookie := none }) := by
  have cv1 := check_status_of_verified token secret oracle now p hv
  have cv2 := check_status_of_verified token2 secret oracle now p2 hv2
  constructor
  · rw [cv1, cv2, ha, hb]
  · intro hfalse
    rw [cv1, hfalse]
    simp

/-- C10 witness: a token whose fields are the truthy non-booleans
"yes" and 2 routes exactly like a token with boolean true fields. -/
theorem C10_truthiness_witness :
    check_status
        (Token.jwt { header := [],
                     payload := [("authenticated", PyValue.str "yes"),
                                 ("valid", PyValue.int 2)],
                     key := "secret", alg := "HS256" })
        "secret" (fun _ => OracleResult.err) 0
      = check_status
          (Token.jwt { header := [],
                       payload := [("authenticated", PyValue.bool true),
                                   ("valid", PyValue.bool true)],
                       key := "secret", alg := "HS256" })
          "secret" (fun _ => OracleResult.err) 0 :=
  (C10_routing_depends_only_on_truthiness
    (Token.jwt { header := [],
                 payload := [("authenticated", PyValue.str "yes"),
                             ("valid", PyValue.int 2)],
                 key := "secret", alg := "HS256" })
    (Token.jwt { header := [],
                 payload := [("authenticated", PyValue.bool true),
                             ("valid", PyValue.bool true)],
                 key := "secret", alg := "HS256" })
    "secret" (fun _ => OracleResult.err) 0
    [("authenticated", PyValue.str "yes"), ("valid", PyValue.int 2)]
    [("authenticated", PyValue.bool true), ("valid", PyValue.bool true)]
    rfl rfl (by decide) (by decide)).1
